import Mathlib

/-!
Verification of the KPI Analytics Engine of this repository.

The Python sources are shallowly embedded: Python floats are modelled as
exact rationals (`ℚ`), values that are only reached through a square root
(standard deviations, Pearson correlations) live in `ℝ`, a float NaN is
modelled as `Option.none` (every NaN comparison in the code is false, and
`none` is mapped to a false comparison wherever the code compares such a
value), and a raised Python exception is modelled as an `Option.none`
result of the whole call.
-/

namespace KpiEngine

/-- The three classification levels returned by `calculate_kpi_status`
(`'normal' | 'warning' | 'critical'` strings in `data_loader.py`). -/
inductive Status where
  | normal
  | warning
  | critical
deriving DecidableEq

/-- One entry of `constants.KPI_THRESHOLDS`: a warning and a critical bound. -/
structure Thresholds where
  warning : ℚ
  critical : ℚ
deriving DecidableEq

/-- `constants.KPI_LABELS`, an insertion-ordered dict: key to display label. -/
def KPI_LABELS : List (String × String) :=
  [("energy_spend", "Energy Spend"),
   ("carbon_intensity", "Carbon Intensity"),
   ("oee", "OEE"),
   ("compressed_air", "Compressed Air"),
   ("water_usage", "Water Usage")]

/-- The metric keys in the insertion order of `constants.KPI_LABELS`. -/
def KPI_KEYS : List String := KPI_LABELS.map Prod.fst

/-- `constants.KPI_THRESHOLDS`: per-key warning/critical bounds. -/
def KPI_THRESHOLDS : List (String × Thresholds) :=
  [("energy_spend", ⟨28, 32⟩),
   ("carbon_intensity", ⟨35/100, 40/100⟩),
   ("oee", ⟨70/100, 65/100⟩),
   ("compressed_air", ⟨70, 80⟩),
   ("water_usage", ⟨11, 13⟩)]

/-- Python list indexing `l[i]` with negative-index wrap-around;
`none` models the `IndexError` raised on an out-of-range index. -/
def pyIndex (l : List ℚ) (i : ℤ) : Option ℚ :=
  let j : ℤ := if i < 0 then (l.length : ℤ) + i else i
  if 0 ≤ j then l.get? j.toNat else none

/-- `data_loader.calculate_kpi_status(kpi_data, kpi_key, day_idx)`.
An unconfigured key returns `'normal'` before the value is even read;
for a configured key the value `kpi_data[kpi_key][day_idx]` is compared
against the thresholds, with inverted comparisons for `'oee'`. -/
def calculate_kpi_status (kpi_data : String → List ℚ) (kpi_key : String)
    (day_idx : ℤ) : Option Status :=
  match KPI_THRESHOLDS.lookup kpi_key with
  | none => some Status.normal
  | some thresholds =>
    (pyIndex (kpi_data kpi_key) day_idx).map (fun value =>
      if kpi_key = "oee" then
        if value < thresholds.critical then Status.critical
        else if value < thresholds.warning then Status.warning
        else Status.normal
      else
        if value > thresholds.critical then Status.critical
        else if value > thresholds.warning then Status.warning
        else Status.normal)

/-- A threshold direction policy, as the specification describes it. -/
inductive Direction where
  | higherWorse
  | lowerWorse
deriving DecidableEq

/-- Modelled from the spec: the direction policy of a metric key —
lower-is-worse for `'oee'`, higher-is-worse for every other key. -/
def spec_direction (kpi_key : String) : Direction :=
  if kpi_key = "oee" then Direction.lowerWorse else Direction.higherWorse

/-- Modelled from the spec: the classification contract of §4.1 —
under higher-is-worse, `value > critical → critical`, else
`value > warning → warning`, else `normal`; under lower-is-worse the
same with `<`. -/
def spec_classify (d : Direction) (warning critical value : ℚ) : Status :=
  match d with
  | Direction.higherWorse =>
      if value > critical then Status.critical
      else if value > warning then Status.warning
      else Status.normal
  | Direction.lowerWorse =>
      if value < critical then Status.critical
      else if value < warning then Status.warning
      else Status.normal

/-- `np.mean` of a non-empty list of floats, as an exact rational
(in Lean the empty list gives `0/0 = 0`; the code's `np.mean([])` is NaN,
which is modelled separately by `pymean`). -/
def meanQ (l : List ℚ) : ℚ := l.sum / l.length

/-- `np.mean`, with `none` for the NaN that `np.mean([])` produces. -/
def pymean (l : List ℚ) : Option ℚ :=
  if l = [] then none else some (meanQ l)

/-- `np.var` / `np.std(...)**2`: the population variance. -/
def varQ (l : List ℚ) : ℚ := meanQ (l.map (fun x => (x - meanQ l) ^ 2))

/-- The population covariance of two aligned series. -/
def covQ (x y : List ℚ) : ℚ :=
  meanQ (List.zipWith (fun a b => (a - meanQ x) * (b - meanQ y)) x y)

/-- `data_loader.calculate_trend_analysis(kpi_data, kpi_key)`, restricted to
the `trend_strength` field that claim C5 is about (the other fields come
from `scipy.stats.linregress`, whose p-value is not a rational function of
the input and is not needed by any claim).  The outer `none` models the
`ValueError` that `linregress` raises on an empty series; the inner
`none` models the NaN that `(second_half - NaN) / NaN` propagates when the
first half `data[:len(data)//2]` is empty (length-1 series). -/
def calculate_trend_analysis (data : List ℚ) : Option (Option ℚ) :=
  if data = [] then none
  else
    let first_half := pymean (data.take (data.length / 2))
    let second_half := pymean (data.drop (data.length / 2))
    match first_half, second_half with
    | some f, some s => some (some (if f ≠ 0 then (s - f) / f else 0))
    | _, _ => some none

/-- Modelled from the spec: `trend_strength` is the relative change
`(second_half_mean - first_half_mean) / first_half_mean`, 0 when the
first-half mean is 0, halves split at `N//2` with the extra element of an
odd-length series going to the second half. -/
def spec_trend_strength (data : List ℚ) : ℚ :=
  let f := meanQ (data.take (data.length / 2))
  let s := meanQ (data.drop (data.length / 2))
  if f = 0 then 0 else (s - f) / f

/-- The flagging decision of `data_loader.detect_anomalies`: the code
compares `np.abs(stats.zscore(data)) > threshold`, i.e.
`|x - mean| / std > threshold` with the population std.  For a constant
series the z-scores are NaN (`0/0`) and the comparison is false.  For a
non-constant series the comparison is rendered here by the equivalent
rational test `(x - mean)^2 > threshold^2 * var ∨ threshold < 0`; the
lemma `anomalyFlag_iff_zscore` below proves this Boolean equal to the
code's real-valued comparison. -/
def anomalyFlag (data : List ℚ) (threshold : ℚ) (x : ℚ) : Bool :=
  if varQ data = 0 then false
  else decide ((x - meanQ data) ^ 2 > threshold ^ 2 * varQ data) || decide (threshold < 0)

/-- `np.abs(stats.zscore(data))`: the absolute standardized deviation of
every sample, with `none` for the NaN a zero-variance series produces. -/
noncomputable def zscoreAbs (data : List ℚ) : List (Option ℝ) :=
  if varQ data = 0 then data.map (fun _ => none)
  else data.map (fun (x : ℚ) =>
    some (|(x : ℝ) - (meanQ data : ℝ)| / Real.sqrt (varQ data)))

/-- The result record of `data_loader.detect_anomalies`. -/
structure AnomalyData where
  days : List ℕ
  values : List ℚ
  z_scores : List (Option ℝ)
  threshold : ℚ
  total_anomalies : ℕ
  anomaly_rate : ℚ

/-- `data_loader.detect_anomalies(kpi_data, kpi_key, threshold)`:
flag the samples whose absolute z-score exceeds the threshold and report
their 1-based days, raw values, z-scores, count and rate.  `none` models
the `ZeroDivisionError` of `anomaly_rate` on an empty series. -/
noncomputable def detect_anomalies (data : List ℚ) (threshold : ℚ) :
    Option AnomalyData :=
  if data = [] then none
  else
    let flagged := (List.range data.length).filter
      (fun i => anomalyFlag data threshold (data.getD i 0))
    some
      { days := flagged.map (fun i => i + 1)
        values := flagged.map (fun i => data.getD i 0)
        z_scores := flagged.map (fun i => (zscoreAbs data).getD i none)
        threshold := threshold
        total_anomalies := flagged.length
        anomaly_rate := (flagged.length : ℚ) / (data.length : ℚ) }

/-- `np.arange(1, n + 1)`: the 1-based day axis, as rationals. -/
def daysList (n : ℕ) : List ℚ := (List.range n).map (fun (i : ℕ) => (i : ℚ) + 1)

/-- The slope fitted by `sklearn.linear_model.LinearRegression` (ordinary
least squares): covariance of (x, y) over variance of x. -/
def olsSlope (x y : List ℚ) : ℚ := covQ x y / varQ x

/-- The OLS intercept: `mean y - slope * mean x`. -/
def olsIntercept (x y : List ℚ) : ℚ := meanQ y - olsSlope x y * meanQ x

/-- The in-sample residuals `y - model.predict(X)` of the OLS fit of a
series against its day axis `1..N`. -/
def olsResiduals (data : List ℚ) : List ℚ :=
  List.zipWith
    (fun d y => y - (olsSlope (daysList data.length) data * d +
      olsIntercept (daysList data.length) data))
    (daysList data.length) data

/-- The result record of `data_loader.generate_forecast`. -/
structure ForecastData where
  historical_days : List ℚ
  historical_values : List ℚ
  forecast_days : List ℚ
  forecast_values : List ℚ
  upper_bound : List ℝ
  lower_bound : List ℝ
  r_squared : ℚ
  slope : ℚ
  intercept : ℚ

/-- `data_loader.generate_forecast(kpi_data, kpi_key, forecast_days)`:
fit OLS of the series against days `1..N`, extrapolate to days
`N+1..N+forecast_days`, and put a uniform band
`forecast ± 1.96 * np.std(residuals)` around the forecast
(`model.score`, i.e. `1 - SS_res / SS_tot`, is the `r_squared` field). -/
noncomputable def generate_forecast (data : List ℚ) (forecast_days : ℕ) :
    ForecastData :=
  let n := data.length
  let days := daysList n
  let slope := olsSlope days data
  let intercept := olsIntercept days data
  let future := (List.range forecast_days).map (fun (i : ℕ) => (n : ℚ) + (i : ℚ) + 1)
  let forecast := future.map (fun d => slope * d + intercept)
  let std_error : ℝ := Real.sqrt (varQ (olsResiduals data))
  let confidence_interval : ℝ := 196 / 100 * std_error
  { historical_days := days
    historical_values := data
    forecast_days := future
    forecast_values := forecast
    upper_bound := forecast.map (fun (f : ℚ) => (f : ℝ) + confidence_interval)
    lower_bound := forecast.map (fun (f : ℚ) => (f : ℝ) - confidence_interval)
    r_squared := 1 - ((olsResiduals data).map (fun r => r ^ 2)).sum /
      ((data.map (fun y => (y - meanQ data) ^ 2)).sum)
    slope := slope
    intercept := intercept }

/-- The conclusion of claim C3 about `generate_forecast data h`: exactly
`h` forecast values at day indices `N+1..N+h`, upper and lower bound
arrays of length `h` that sit at `forecast ± 1.96 * std(residuals)`, so
`upper ≥ forecast ≥ lower` pointwise with a constant band width. -/
def ForecastShape (data : List ℚ) (h : ℕ) : Prop :=
  (generate_forecast data h).forecast_values.length = h ∧
  (generate_forecast data h).forecast_days.length = h ∧
  (generate_forecast data h).upper_bound.length = h ∧
  (generate_forecast data h).lower_bound.length = h ∧
  (∀ i, i < h → (generate_forecast data h).forecast_days.getD i 0 =
    (data.length : ℚ) + (i : ℚ) + 1) ∧
  (∀ i, i < h →
    (generate_forecast data h).upper_bound.getD i 0 =
      ((generate_forecast data h).forecast_values.getD i 0 : ℝ) +
        196 / 100 * Real.sqrt (varQ (olsResiduals data)) ∧
    (generate_forecast data h).lower_bound.getD i 0 =
      ((generate_forecast data h).forecast_values.getD i 0 : ℝ) -
        196 / 100 * Real.sqrt (varQ (olsResiduals data)) ∧
    (generate_forecast data h).lower_bound.getD i 0 ≤
      ((generate_forecast data h).forecast_values.getD i 0 : ℝ) ∧
    ((generate_forecast data h).forecast_values.getD i 0 : ℝ) ≤
      (generate_forecast data h).upper_bound.getD i 0 ∧
    (generate_forecast data h).upper_bound.getD i 0 -
      (generate_forecast data h).lower_bound.getD i 0 =
      2 * (196 / 100) * Real.sqrt (varQ (olsResiduals data)))

/-- One cell of the Pearson correlation matrix that `pandas.DataFrame.corr`
computes: `cov(x, y) / sqrt(var x * var y)`.  When either column has zero
variance the divisor is 0 and pandas stores NaN (`none`) — on the
diagonal too. -/
noncomputable def pearson (x y : List ℚ) : Option ℝ :=
  if varQ x * varQ y = 0 then none
  else some ((covQ x y : ℝ) / Real.sqrt ((varQ x : ℝ) * (varQ y : ℝ)))

/-- The series at column position `i` of the store: a `pd.DataFrame` built
from an insertion-ordered dict keeps the columns in that order, and
`iloc[i, j]` addresses them positionally. -/
def colAt (store : List (String × List ℚ)) (i : ℕ) : List ℚ :=
  ((store.get? i).map Prod.snd).getD []

/-- `data_loader.perform_correlation_analysis(kpi_data)`: the dict of
dicts `corr_dict[kpi1][kpi2] = correlation_matrix.iloc[i, j]`, where
`i, j` are the positions of `kpi1, kpi2` in the enumeration of
`KPI_LABELS.keys()` and `iloc` picks the DataFrame columns at those
positions — i.e. the store's series in insertion order, not the series
actually named `kpi1, kpi2` (for a key outside `KPI_LABELS`, which the
code's dict never holds, `indexOf` falls off the store and the cell is
`none`). -/
noncomputable def perform_correlation_analysis
    (store : List (String × List ℚ)) : String → String → Option ℝ :=
  fun kpi1 kpi2 =>
    pearson (colAt store (KPI_KEYS.indexOf kpi1))
      (colAt store (KPI_KEYS.indexOf kpi2))

/-- A store in `KPI_LABELS` key order whose five columns are centred
vectors of variance 5/2, giving the exact pairwise correlations
(dot product / 10) used to exercise the correlation pipeline. -/
def analyticsStore : List (String × List ℚ) :=
  [("energy_spend", [1, -1, 2, -2]),
   ("carbon_intensity", [2, -2, 1, -1]),
   ("oee", [2, -2, -1, 1]),
   ("compressed_air", [1, -1, -2, 2]),
   ("water_usage", [-1, 1, -2, 2])]

/-- A store of the five metric keys with the constant series `[7, 7, 7]`
under `'oee'` (zero variance) and `[1, 2, 3]` elsewhere. -/
def constOeeStore : List (String × List ℚ) :=
  [("energy_spend", [1, 2, 3]),
   ("carbon_intensity", [1, 2, 3]),
   ("oee", [7, 7, 7]),
   ("compressed_air", [1, 2, 3]),
   ("water_usage", [1, 2, 3])]

/-- A store holding the five metric keys OUT of `KPI_LABELS` order: the
first two entries are swapped, and the series named `'carbon_intensity'`
(`[3, 2, 1]`, now in position 0) anticorrelates with the series named
`'energy_spend'` (`[1, 2, 3]`, in position 1). -/
def swappedStore : List (String × List ℚ) :=
  [("carbon_intensity", [3, 2, 1]),
   ("energy_spend", [1, 2, 3]),
   ("oee", [1, 2, 3]),
   ("compressed_air", [1, 2, 3]),
   ("water_usage", [1, 2, 3])]

/-- The ordered key pairs (positions `i < j`) enumerated by the double
loop over `KPI_LABELS.keys()` in
`components.build_combined_analytics_view`. -/
def orderedKeyPairs : List (String × String) :=
  KPI_KEYS.enum.flatMap (fun p =>
    (KPI_KEYS.enum.filter (fun q => p.1 < q.1)).map (fun q => (p.2, q.2)))

/-- One entry of the `strong_correlations` list built by
`components.build_combined_analytics_view`. -/
structure CorrRecord where
  kpi1 : String
  kpi2 : String
  correlation : ℝ
  strength : String

section
open Classical

/-- The correlation section of `components.build_combined_analytics_view`:
over ordered key pairs (`i < j`, so each unordered pair once), keep the
records with `abs(corr_val) > 0.5`, labelled `'Strong'` above 0.7 and
`'Moderate'` otherwise, in loop order — the code never sorts this list,
and the view then renders `strong_correlations[:3]`.  A NaN correlation
(`none`) fails the `>` comparison and is skipped. -/
noncomputable def strong_correlations
    (corr_data : String → String → Option ℝ) : List CorrRecord :=
  orderedKeyPairs.filterMap (fun p =>
    match corr_data p.1 p.2 with
    | none => none
    | some r =>
      if |r| > 1/2 then
        some { kpi1 := (KPI_LABELS.lookup p.1).getD ""
               kpi2 := (KPI_LABELS.lookup p.2).getD ""
               correlation := r
               strength := if |r| > 7/10 then "Strong" else "Moderate" }
      else none)

end

/-- `constants.KPI_UNITS`: per-key unit strings carried by the exports. -/
def KPI_UNITS : List (String × String) :=
  [("energy_spend", "kWh"),
   ("carbon_intensity", "kgCO₂/kWh"),
   ("oee", "%"),
   ("compressed_air", "Nm³"),
   ("water_usage", "m³")]

/-- `data_loader.export_kpi_data_to_csv(kpi_data, days)`: the numeric
content of the exported DataFrame — a `'Day'` column followed by one
column per key of `KPI_LABELS`, headed by the display label, the `'oee'`
series multiplied elementwise by 100 and every other series unchanged
(the timestamped filename and the CSV string rendering carry no further
numeric content and are not modelled). -/
def export_kpi_data_to_csv (kpi_data : String → List ℚ) (days : List ℚ) :
    List (String × List ℚ) :=
  ("Day", days) :: KPI_LABELS.map (fun kl =>
    (kl.2, if kl.1 = "oee" then (kpi_data kl.1).map (fun v => v * 100)
           else kpi_data kl.1))

/-- `data_loader.export_kpi_data_to_json(kpi_data, days)`: the list of
per-day records, one per `enumerate(days)` entry, each mapping every key
of `KPI_LABELS` to its label, the value `kpi_data[kpi_key][day_idx]`
(multiplied by 100 for `'oee'`, `none` modelling the `IndexError` of a
series shorter than `days`), and the unit string (export timestamp,
metadata block and filename are not modelled). -/
def export_kpi_data_to_json (kpi_data : String → List ℚ) (days : List ℤ) :
    List (ℤ × List (String × String × Option ℚ × String)) :=
  days.enum.map (fun p =>
    (p.2, KPI_LABELS.map (fun kl =>
      (kl.1, kl.2,
       ((kpi_data kl.1).get? p.1).map (fun v => if kl.1 = "oee" then v * 100 else v),
       (KPI_UNITS.lookup kl.1).getD ""))))

/-- `data_loader.export_kpi_status_to_json(kpi_data, day_idx)`: the status
snapshot — for every key of `KPI_LABELS` its label, the value at
`day_idx` (multiplied by 100 for `'oee'`), the unit string and the
classified status (export timestamp, thresholds block and filename are
not modelled). -/
def export_kpi_status_to_json (kpi_data : String → List ℚ) (day_idx : ℤ) :
    List (String × String × Option ℚ × String × Option Status) :=
  KPI_LABELS.map (fun kl =>
    (kl.1, kl.2,
     (pyIndex (kpi_data kl.1) day_idx).map (fun v => if kl.1 = "oee" then v * 100 else v),
     (KPI_UNITS.lookup kl.1).getD "",
     calculate_kpi_status kpi_data kl.1 day_idx))

end KpiEngine

namespace KpiEngine

/-- Claim C1: for every store, day index and metric key carrying a
configured threshold policy, `calculate_kpi_status` classifies the looked-up
value exactly as the spec's directional contract does: lower-is-worse for
`'oee'`, higher-is-worse for every other key. -/
theorem calculate_kpi_status_matches_spec (kpi_data : String → List ℚ)
    (kpi_key : String) (day_idx : ℤ) (th : Thresholds)
    (hth : KPI_THRESHOLDS.lookup kpi_key = some th)
    (v : ℚ) (hv : pyIndex (kpi_data kpi_key) day_idx = some v) :
    calculate_kpi_status kpi_data kpi_key day_idx =
      some (spec_classify (spec_direction kpi_key) th.warning th.critical v) := by
  unfold calculate_kpi_status spec_direction spec_classify
  rw [hth, hv]
  by_cases h : kpi_key = "oee" <;> simp [h]

/-- Witness for C1 at a concrete input: the store holding the single value
33 for every key, queried at `'energy_spend'` and Python index `-1`
(33 > 32 = critical, so the status is critical). -/
theorem calculate_kpi_status_matches_spec_witness :
    KPI_THRESHOLDS.lookup "energy_spend" = some ⟨28, 32⟩ ∧
    pyIndex ((fun _ => [(33 : ℚ)]) "energy_spend") (-1) = some 33 ∧
    calculate_kpi_status (fun _ => [(33 : ℚ)]) "energy_spend" (-1) =
      some (spec_classify (spec_direction "energy_spend") 28 32 33) :=
  ⟨by decide, by decide,
   calculate_kpi_status_matches_spec (fun _ => [(33 : ℚ)]) "energy_spend" (-1)
     ⟨28, 32⟩ (by decide) 33 (by decide)⟩

/-- Claim C7: a metric key without an entry in `KPI_THRESHOLDS` is
classified `'normal'` for every store and every day index (the early
return happens before the value is even looked up). -/
theorem unconfigured_key_is_normal (kpi_data : String → List ℚ)
    (kpi_key : String) (h : KPI_THRESHOLDS.lookup kpi_key = none)
    (day_idx : ℤ) :
    calculate_kpi_status kpi_data kpi_key day_idx = some Status.normal := by
  unfold calculate_kpi_status
  rw [h]

/-- Witness for C7 at a concrete input: the unconfigured key `'throughput'`
is classified normal even at an out-of-range day index. -/
theorem unconfigured_key_is_normal_witness :
    KPI_THRESHOLDS.lookup "throughput" = none ∧
    calculate_kpi_status (fun _ => [(1 : ℚ)]) "throughput" 99 = some Status.normal :=
  ⟨by decide,
   unconfigured_key_is_normal (fun _ => [(1 : ℚ)]) "throughput" (by decide) 99⟩

theorem sum_of_forall_eq (l : List ℚ) (c : ℚ) (h : ∀ x ∈ l, x = c) :
    l.sum = l.length * c := by
  induction l with
  | nil => simp
  | cons a t ih =>
    have ha : a = c := h a (by simp)
    have ht : ∀ x ∈ t, x = c := fun x hx => h x (by simp [hx])
    simp [ha, ih ht]
    ring

theorem meanQ_of_forall_eq (l : List ℚ) (c : ℚ) (hl : l ≠ [])
    (h : ∀ x ∈ l, x = c) : meanQ l = c := by
  have hpos : 0 < l.length := List.length_pos.mpr hl
  have hn : (l.length : ℚ) ≠ 0 := by exact_mod_cast hpos.ne'
  rw [meanQ, sum_of_forall_eq l c h, mul_comm, mul_div_assoc, div_self hn, mul_one]

theorem varQ_of_forall_eq (l : List ℚ) (c : ℚ) (h : ∀ x ∈ l, x = c) :
    varQ l = 0 := by
  by_cases hl : l = []
  · simp [hl, varQ, meanQ]
  · have hm := meanQ_of_forall_eq l c hl h
    have : l.map (fun x => (x - meanQ l) ^ 2) = l.map (fun _ => 0) := by
      apply List.map_congr_left
      intro x hx
      rw [hm, h x hx]
      ring
    rw [varQ, this]
    have hz : ∀ y ∈ l.map (fun _ : ℚ => (0 : ℚ)), y = 0 := by simp
    by_cases hml : l.map (fun _ : ℚ => (0 : ℚ)) = []
    · simp [hml, meanQ]
    · exact meanQ_of_forall_eq _ 0 hml hz

/-- Claim C5: for every series of length at least 2 (so that both halves
are non-empty), `calculate_trend_analysis` returns exactly the spec's
`trend_strength`: the relative change between the two half means, halves
split at `N//2`, the odd extra element in the second half, and 0 when the
first-half mean is 0. -/
theorem trend_strength_matches_spec (data : List ℚ) (h : 2 ≤ data.length) :
    calculate_trend_analysis data = some (some (spec_trend_strength data)) := by
  have hne : data ≠ [] := by
    intro he
    rw [he] at h
    simp at h
  have htake : data.take (data.length / 2) ≠ [] := by
    have h1 : 1 ≤ data.length / 2 := (Nat.one_le_div_iff (by norm_num)).mpr h
    intro he
    have := congrArg List.length he
    simp [Nat.min_eq_left (Nat.div_le_self _ _)] at this
    omega
  have hdrop : data.drop (data.length / 2) ≠ [] := by
    intro he
    have := congrArg List.length he
    simp at this
    omega
  unfold calculate_trend_analysis spec_trend_strength pymean
  rw [if_neg hne, if_neg htake, if_neg hdrop]
  by_cases hf : meanQ (data.take (data.length / 2)) = 0 <;> simp [hf]

/-- Witness for C5 at the concrete series `[1, 2, 4]`: first half `[1]`,
second half `[2, 4]`, strength `(3 - 1) / 1 = 2`. -/
theorem trend_strength_matches_spec_witness :
    2 ≤ ([1, 2, 4] : List ℚ).length ∧
    calculate_trend_analysis [1, 2, 4] = some (some (spec_trend_strength [1, 2, 4])) ∧
    spec_trend_strength [1, 2, 4] = 2 :=
  ⟨by decide, trend_strength_matches_spec [1, 2, 4] (by decide),
   by norm_num [spec_trend_strength, meanQ]⟩

/-- Claim C4: on a non-empty constant series every z-score is NaN (`0/0`),
no sample is flagged, and `detect_anomalies` returns a complete result with
zero anomalies and empty `days`, `values` and `z_scores` lists, for every
threshold. -/
theorem detect_anomalies_constant_series (data : List ℚ) (c threshold : ℚ)
    (hne : data ≠ []) (hc : ∀ x ∈ data, x = c) :
    detect_anomalies data threshold =
      some ⟨[], [], [], threshold, 0, 0⟩ := by
  have hv : varQ data = 0 := varQ_of_forall_eq data c hc
  unfold detect_anomalies
  rw [if_neg hne]
  have hfil : (List.range data.length).filter
      (fun i => anomalyFlag data threshold (data.getD i 0)) = [] := by
    rw [List.filter_eq_nil_iff]
    intro i _
    unfold anomalyFlag
    rw [if_pos hv]
    simp
  rw [hfil]
  simp

/-- Witness for C4 at the concrete constant series `[5, 5, 5]` with the
default threshold 2. -/
theorem detect_anomalies_constant_series_witness :
    (([5, 5, 5] : List ℚ) ≠ [] ∧ ∀ x ∈ ([5, 5, 5] : List ℚ), x = 5) ∧
    detect_anomalies [5, 5, 5] 2 = some ⟨[], [], [], 2, 0, 0⟩ :=
  ⟨⟨by decide, by decide⟩,
   detect_anomalies_constant_series [5, 5, 5] 5 2 (by decide) (by decide)⟩

theorem varQ_nonneg (l : List ℚ) : 0 ≤ varQ l := by
  unfold varQ meanQ
  apply div_nonneg
  · apply List.sum_nonneg
    intro a ha
    obtain ⟨x, _, rfl⟩ := List.mem_map.mp ha
    positivity
  · positivity

/-- The Boolean flag of `anomalyFlag` coincides, on a series of nonzero
variance, with the comparison the Python code performs:
`np.abs(zscore(data)) > threshold`, i.e. `|x - mean| / std > threshold`. -/
theorem anomalyFlag_iff_zscore (data : List ℚ) (t x : ℚ)
    (hv : varQ data ≠ 0) :
    anomalyFlag data t x = true ↔
      (t : ℝ) < |(x : ℝ) - (meanQ data : ℝ)| / Real.sqrt (varQ data) := by
  have hv0 : 0 < varQ data := lt_of_le_of_ne (varQ_nonneg data) (Ne.symm hv)
  have hvR : (0 : ℝ) < ((varQ data : ℚ) : ℝ) := by exact_mod_cast hv0
  have hs : 0 < Real.sqrt (varQ data) := Real.sqrt_pos.mpr hvR
  unfold anomalyFlag
  rw [if_neg hv]
  rcases lt_or_le t 0 with ht | ht
  · constructor
    · intro _
      calc (t : ℝ) < 0 := by exact_mod_cast ht
        _ ≤ |(x : ℝ) - (meanQ data : ℝ)| / Real.sqrt (varQ data) :=
          div_nonneg (abs_nonneg _) (Real.sqrt_nonneg _)
    · intro _
      simp [ht]
  · have htR : (0 : ℝ) ≤ (t : ℝ) := by exact_mod_cast ht
    have hQtoR : ((x - meanQ data) ^ 2 > t ^ 2 * varQ data) ↔
        ((t : ℝ) * Real.sqrt (varQ data)) ^ 2 <
          |(x : ℝ) - (meanQ data : ℝ)| ^ 2 := by
      rw [mul_pow, Real.sq_sqrt hvR.le, sq_abs]
      constructor
      · intro hQ
        have : ((t : ℝ)) ^ 2 * ((varQ data : ℚ) : ℝ) <
            ((x : ℝ) - (meanQ data : ℝ)) ^ 2 := by exact_mod_cast hQ
        exact this
      · intro hR
        exact_mod_cast hR
    rw [lt_div_iff₀ hs]
    rw [← pow_lt_pow_iff_left₀ (mul_nonneg htR (Real.sqrt_nonneg _))
      (abs_nonneg _) (two_ne_zero)]
    rw [← hQtoR]
    simp [not_lt.mpr ht]

/-- Claim C9: on a series of nonzero variance, `detect_anomalies` succeeds
and its `z_scores` list holds, for each flagged sample, the absolute value
of the standardized deviation `|x - mean| / std` of the corresponding raw
value — so every reported z-score is non-negative and strictly greater than
the threshold, and the sign of the deviation is not part of the result. -/
theorem detect_anomalies_zscores_absolute (data : List ℚ) (t : ℚ)
    (hv : varQ data ≠ 0) :
    ∃ r, detect_anomalies data t = some r ∧
      r.z_scores = r.values.map (fun (x : ℚ) =>
        some (|(x : ℝ) - (meanQ data : ℝ)| / Real.sqrt (varQ data))) ∧
      ∀ oz ∈ r.z_scores, ∃ z : ℝ, oz = some z ∧ 0 ≤ z ∧ (t : ℝ) < z := by
  have hne : data ≠ [] := by
    intro he
    apply hv
    rw [he]
    norm_num [varQ, meanQ]
  have hz : ∀ i, i < data.length →
      (zscoreAbs data).getD i none =
        some (|((data.getD i 0 : ℚ) : ℝ) - (meanQ data : ℝ)| /
          Real.sqrt (varQ data)) := by
    intro i hlen
    unfold zscoreAbs
    rw [if_neg hv]
    rw [List.getD_eq_getElem?_getD, List.getElem?_map,
      List.getElem?_eq_getElem hlen, List.getD_eq_getElem?_getD,
      List.getElem?_eq_getElem hlen]
    rfl
  unfold detect_anomalies
  rw [if_neg hne]
  refine ⟨_, rfl, ?_, ?_⟩
  · rw [List.map_map]
    apply List.map_congr_left
    intro i hi
    have hlen : i < data.length := List.mem_range.mp (List.mem_filter.mp hi).1
    simpa using hz i hlen
  · intro oz hoz
    obtain ⟨i, hi, rfl⟩ := List.mem_map.mp hoz
    have hmem := List.mem_filter.mp hi
    have hlen : i < data.length := List.mem_range.mp hmem.1
    refine ⟨_, hz i hlen, div_nonneg (abs_nonneg _) (Real.sqrt_nonneg _), ?_⟩
    exact (anomalyFlag_iff_zscore data t (data.getD i 0) hv).mp hmem.2

/-- Claim C6: in all three export paths — the row-per-day CSV export, the
nested JSON time-series export and the JSON status snapshot — the `'oee'`
value is converted to a percentage by a single multiplication by 100, and
the value of every other metric is emitted unchanged. -/
theorem export_paths_scale_only_oee (kpi_data : String → List ℚ)
    (daysQ : List ℚ) (daysZ : List ℤ) (day_idx : ℤ) :
    ((export_kpi_data_to_csv kpi_data daysQ).lookup "OEE" =
        some ((kpi_data "oee").map (fun v => v * 100)) ∧
      ∀ k l, (k, l) ∈ KPI_LABELS → k ≠ "oee" →
        (export_kpi_data_to_csv kpi_data daysQ).lookup l = some (kpi_data k)) ∧
    (∀ i, i < daysZ.length → ∃ d row,
      (export_kpi_data_to_json kpi_data daysZ).get? i = some (d, row) ∧
      (∃ l u, row.lookup "oee" =
        some (l, ((kpi_data "oee").get? i).map (fun v => v * 100), u)) ∧
      ∀ k ∈ KPI_KEYS, k ≠ "oee" → ∃ l u,
        row.lookup k = some (l, (kpi_data k).get? i, u)) ∧
    ((∃ l u st, (export_kpi_status_to_json kpi_data day_idx).lookup "oee" =
        some (l, (pyIndex (kpi_data "oee") day_idx).map (fun v => v * 100), u, st)) ∧
      ∀ k ∈ KPI_KEYS, k ≠ "oee" → ∃ l u st,
        (export_kpi_status_to_json kpi_data day_idx).lookup k =
          some (l, pyIndex (kpi_data k) day_idx, u, st)) := by
  refine ⟨⟨?_, ?_⟩, ?_, ?_, ?_⟩
  · rfl
  · intro k l hmem hk
    simp only [KPI_LABELS, List.mem_cons, List.not_mem_nil, or_false,
      Prod.mk.injEq] at hmem
    rcases hmem with ⟨hk1, hl1⟩ | ⟨hk1, hl1⟩ | ⟨hk1, hl1⟩ | ⟨hk1, hl1⟩ | ⟨hk1, hl1⟩ <;>
      subst hk1 <;> subst hl1
    · rfl
    · rfl
    · exact absurd rfl hk
    · rfl
    · rfl
  · intro i hi
    have hrow : (export_kpi_data_to_json kpi_data daysZ).get? i =
        some (daysZ.get ⟨i, hi⟩, KPI_LABELS.map (fun kl =>
          (kl.1, kl.2,
           ((kpi_data kl.1).get? i).map (fun v => if kl.1 = "oee" then v * 100 else v),
           (KPI_UNITS.lookup kl.1).getD ""))) := by
      unfold export_kpi_data_to_json
      rw [List.get?_eq_getElem?, List.getElem?_map, List.getElem?_enum,
        List.getElem?_eq_getElem hi]
      rfl
    refine ⟨_, _, hrow, ⟨"OEE", "%", rfl⟩, ?_⟩
    intro k hk hko
    simp only [KPI_KEYS, KPI_LABELS, List.map_cons, List.map_nil,
      List.mem_cons, List.not_mem_nil, or_false] at hk
    rcases hk with hk1 | hk1 | hk1 | hk1 | hk1 <;> subst hk1
    · exact ⟨"Energy Spend", "kWh", by simp [List.lookup, KPI_LABELS, KPI_UNITS]⟩
    · exact ⟨"Carbon Intensity", "kgCO₂/kWh", by simp [List.lookup, KPI_LABELS, KPI_UNITS]⟩
    · exact absurd rfl hko
    · exact ⟨"Compressed Air", "Nm³", by simp [List.lookup, KPI_LABELS, KPI_UNITS]⟩
    · exact ⟨"Water Usage", "m³", by simp [List.lookup, KPI_LABELS, KPI_UNITS]⟩
  · exact ⟨"OEE", "%", calculate_kpi_status kpi_data "oee" day_idx, rfl⟩
  · intro k hk hko
    simp only [KPI_KEYS, KPI_LABELS, List.map_cons, List.map_nil,
      List.mem_cons, List.not_mem_nil, or_false] at hk
    rcases hk with hk1 | hk1 | hk1 | hk1 | hk1 <;> subst hk1
    · exact ⟨"Energy Spend", "kWh", calculate_kpi_status kpi_data "energy_spend" day_idx,
        by simp [export_kpi_status_to_json, List.lookup, KPI_LABELS, KPI_UNITS]⟩
    · exact ⟨"Carbon Intensity", "kgCO₂/kWh", calculate_kpi_status kpi_data "carbon_intensity" day_idx,
        by simp [export_kpi_status_to_json, List.lookup, KPI_LABELS, KPI_UNITS]⟩
    · exact absurd rfl hko
    · exact ⟨"Compressed Air", "Nm³", calculate_kpi_status kpi_data "compressed_air" day_idx,
        by simp [export_kpi_status_to_json, List.lookup, KPI_LABELS, KPI_UNITS]⟩
    · exact ⟨"Water Usage", "m³", calculate_kpi_status kpi_data "water_usage" day_idx,
        by simp [export_kpi_status_to_json, List.lookup, KPI_LABELS, KPI_UNITS]⟩

/-- Witness for C6 at a concrete store (every series `[2, 4]`): the CSV
column under the OEE label is the series times 100, the column of the
non-oee key `'water_usage'` is unchanged. -/
theorem export_paths_scale_only_oee_witness :
    (("water_usage", "Water Usage") ∈ KPI_LABELS ∧ "water_usage" ≠ "oee") ∧
    (export_kpi_data_to_csv (fun _ => [2, 4]) [1, 2]).lookup "OEE" =
      some (([2, 4] : List ℚ).map (fun v => v * 100)) ∧
    (export_kpi_data_to_csv (fun _ => [2, 4]) [1, 2]).lookup "Water Usage" =
      some [2, 4] :=
  ⟨⟨by decide, by decide⟩,
   (export_paths_scale_only_oee (fun _ => [2, 4]) [1, 2] [1, 2] (-1)).1.1,
   (export_paths_scale_only_oee (fun _ => [2, 4]) [1, 2] [1, 2] (-1)).1.2
     "water_usage" "Water Usage" (by decide) (by decide)⟩

theorem getD_map_QR (l : List ℚ) (g : ℚ → ℝ) (i : ℕ) (hi : i < l.length)
    (d : ℝ) (dq : ℚ) : (l.map g).getD i d = g (l.getD i dq) := by
  rw [List.getD_eq_getElem?_getD, List.getElem?_map, List.getElem?_eq_getElem hi,
    List.getD_eq_getElem?_getD, List.getElem?_eq_getElem hi]
  rfl

/-- Claim C3: for every series of length at least 2 and horizon at least 1,
`generate_forecast` returns exactly `h` forecast values at day indices
`N+1..N+h` and bound arrays of length `h` with
`upper = forecast + 1.96 * std(residuals)` and
`lower = forecast - 1.96 * std(residuals)` pointwise, hence
`upper ≥ forecast ≥ lower` with one constant band width. -/
theorem generate_forecast_shape (data : List ℚ) (h : ℕ)
    (hn : 2 ≤ data.length) (hh : 1 ≤ h) : ForecastShape data h := by
  have hs : (0 : ℝ) ≤ 196 / 100 * Real.sqrt (varQ (olsResiduals data)) := by
    positivity
  have hdays : (generate_forecast data h).forecast_days =
      (List.range h).map (fun (i : ℕ) => (data.length : ℚ) + (i : ℚ) + 1) := by
    simp [generate_forecast]
  have hfv : (generate_forecast data h).forecast_values =
      ((List.range h).map (fun (i : ℕ) => (data.length : ℚ) + (i : ℚ) + 1)).map
        (fun d => olsSlope (daysList data.length) data * d +
          olsIntercept (daysList data.length) data) := by
    simp [generate_forecast]
  have hub : (generate_forecast data h).upper_bound =
      (generate_forecast data h).forecast_values.map
        (fun (f : ℚ) => (f : ℝ) + 196 / 100 * Real.sqrt (varQ (olsResiduals data))) := by
    simp [generate_forecast]
  have hlb : (generate_forecast data h).lower_bound =
      (generate_forecast data h).forecast_values.map
        (fun (f : ℚ) => (f : ℝ) - 196 / 100 * Real.sqrt (varQ (olsResiduals data))) := by
    simp [generate_forecast]
  have hlen : (generate_forecast data h).forecast_values.length = h := by
    rw [hfv]
    simp
  refine ⟨hlen, ?_, ?_, ?_, ?_, ?_⟩
  · rw [hdays]
    simp
  · rw [hub, List.length_map, hlen]
  · rw [hlb, List.length_map, hlen]
  · intro i hi
    rw [hdays, List.getD_eq_getElem?_getD, List.getElem?_map,
      List.getElem?_range hi]
    rfl
  · intro i hi
    have hilen : i < (generate_forecast data h).forecast_values.length := by
      rw [hlen]
      exact hi
    have hu := getD_map_QR (generate_forecast data h).forecast_values
      (fun (f : ℚ) => (f : ℝ) + 196 / 100 * Real.sqrt (varQ (olsResiduals data)))
      i hilen 0 0
    have hl := getD_map_QR (generate_forecast data h).forecast_values
      (fun (f : ℚ) => (f : ℝ) - 196 / 100 * Real.sqrt (varQ (olsResiduals data)))
      i hilen 0 0
    rw [hub, hlb, hu, hl]
    refine ⟨rfl, rfl, ?_, ?_, by ring⟩
    · linarith
    · linarith

theorem covQ_comm (x y : List ℚ) : covQ x y = covQ y x := by
  unfold covQ
  rw [List.zipWith_comm]
  have hfun : (fun b a => (a - meanQ x) * (b - meanQ y)) =
      (fun (a b : ℚ) => (a - meanQ y) * (b - meanQ x)) := by
    funext a b
    ring
  rw [hfun]

theorem covQ_self (x : List ℚ) : covQ x x = varQ x := by
  unfold covQ varQ
  rw [List.zipWith_same]
  have hfun : (fun (a : ℚ) => (a - meanQ x) * (a - meanQ x)) =
      (fun (a : ℚ) => (a - meanQ x) ^ 2) := by
    funext a
    ring
  rw [hfun]

theorem pearson_comm (x y : List ℚ) : pearson x y = pearson y x := by
  unfold pearson
  rw [covQ_comm x y, mul_comm (varQ x) (varQ y),
    mul_comm ((varQ x : ℝ)) ((varQ y : ℝ))]

theorem pearson_self (x : List ℚ) (hv : varQ x ≠ 0) : pearson x x = some 1 := by
  have hv0 : 0 < varQ x := lt_of_le_of_ne (varQ_nonneg x) (Ne.symm hv)
  have hvR : (0 : ℝ) < (varQ x : ℝ) := by exact_mod_cast hv0
  unfold pearson
  rw [if_neg (by rw [mul_self_eq_zero]; exact hv)]
  rw [covQ_self, Real.sqrt_mul_self hvR.le, div_self (ne_of_gt hvR)]

/-- Claim C2, amended: for every store of the five metric keys in which
every series has NONZERO population variance, the correlation dict is
symmetric and carries 1.0 on the diagonal.  (As stated the claim is false:
a constant series makes the pandas divisor 0 and the affected entries —
the diagonal one included — NaN, see
`correlation_diag_not_one_on_constant_series`.) -/
theorem correlation_symm_and_unit_diag (store : List (String × List ℚ))
    (hlen : store.length = 5)
    (hvar : ∀ p ∈ store, varQ p.2 ≠ 0)
    (a b : String) (ha : a ∈ KPI_KEYS) (hb : b ∈ KPI_KEYS) :
    perform_correlation_analysis store a b =
      perform_correlation_analysis store b a ∧
    perform_correlation_analysis store a a = some 1 := by
  constructor
  · unfold perform_correlation_analysis
    exact pearson_comm _ _
  · unfold perform_correlation_analysis
    apply pearson_self
    have hkl : KPI_KEYS.length = 5 := rfl
    have hidx : KPI_KEYS.indexOf a < store.length := by
      rw [hlen, ← hkl]
      exact List.indexOf_lt_length.mpr ha
    have hget : store.get? (KPI_KEYS.indexOf a) =
        some (store.get ⟨KPI_KEYS.indexOf a, hidx⟩) := List.get?_eq_get hidx
    have hcol : colAt store (KPI_KEYS.indexOf a) =
        (store.get ⟨KPI_KEYS.indexOf a, hidx⟩).2 := by
      unfold colAt
      rw [hget]
      rfl
    rw [hcol]
    exact hvar _ (List.get_mem store _ _)

/-- Counterexample to claim C2 as stated: in `constOeeStore` the `'oee'`
series is constant, its pandas correlation with itself is NaN (divisor 0),
and the diagonal entry under `('oee', 'oee')` is therefore not 1.0. -/
theorem correlation_diag_not_one_on_constant_series :
    perform_correlation_analysis constOeeStore "oee" "oee" ≠ some 1 := by
  have hidx : KPI_KEYS.indexOf "oee" = 2 := rfl
  have hcol : colAt constOeeStore 2 = [7, 7, 7] := rfl
  have hv : varQ ([7, 7, 7] : List ℚ) = 0 := by norm_num [varQ, meanQ]
  unfold perform_correlation_analysis
  rw [hidx, hcol]
  unfold pearson
  rw [if_pos (by rw [hv]; norm_num)]
  simp

/-- Witness for the amended C2 at the concrete all-nonconstant store
`analyticsStore` and the keys `'energy_spend'`, `'carbon_intensity'`. -/
theorem correlation_symm_and_unit_diag_witness :
    (analyticsStore.length = 5 ∧ (∀ p ∈ analyticsStore, varQ p.2 ≠ 0) ∧
      "energy_spend" ∈ KPI_KEYS ∧ "carbon_intensity" ∈ KPI_KEYS) ∧
    (perform_correlation_analysis analyticsStore "energy_spend" "carbon_intensity" =
      perform_correlation_analysis analyticsStore "carbon_intensity" "energy_spend" ∧
     perform_correlation_analysis analyticsStore "energy_spend" "energy_spend" =
       some 1) :=
  ⟨⟨by decide,
    by intro p hp; fin_cases hp <;> norm_num [varQ, meanQ],
    by decide, by decide⟩,
   correlation_symm_and_unit_diag analyticsStore (by decide)
     (by intro p hp; fin_cases hp <;> norm_num [varQ, meanQ])
     "energy_spend" "carbon_intensity" (by decide) (by decide)⟩

theorem lookup_eq_get_indexOf (l : List (String × List ℚ)) (a : String) :
    l.lookup a = (l.get? ((l.map Prod.fst).indexOf a)).map Prod.snd := by
  induction l with
  | nil => rfl
  | cons p t ih =>
    obtain ⟨k, v⟩ := p
    by_cases h : a = k
    · subst h
      simp [List.lookup]
    · have hbeq : (a == k) = false := beq_eq_false_iff_ne.mpr h
      rw [List.map_cons]
      rw [show (((k, v) :: t).lookup a) = t.lookup a by simp [List.lookup, hbeq]]
      rw [List.indexOf_cons_ne _ (Ne.symm h)]
      simpa using ih

theorem pearson_eval (x y : List ℚ) (v : ℚ) (hx : varQ x = v) (hy : varQ y = v)
    (hv : 0 < v) : pearson x y = some ((covQ x y : ℝ) / (v : ℝ)) := by
  have hs : Real.sqrt ((v : ℝ) * (v : ℝ)) = (v : ℝ) :=
    Real.sqrt_mul_self (by exact_mod_cast hv.le)
  unfold pearson
  rw [hx, hy, if_neg (by positivity), hs]

/-- Claim C10: `perform_correlation_analysis` labels the matrix entries
positionally — the cell under keys `(kpi1, kpi2)` is the Pearson
correlation of the store's columns at the positions those keys occupy in
`KPI_LABELS`, taken in the store's insertion order; the cell equals the
correlation of the series actually NAMED `kpi1` and `kpi2` when the
store's key order equals `KPI_LABELS` order, and can differ from it
otherwise (`swappedStore` is a concrete mismatch). -/
theorem correlation_labels_positional :
    (∀ (store : List (String × List ℚ)) (kpi1 kpi2 : String),
      perform_correlation_analysis store kpi1 kpi2 =
        pearson (colAt store (KPI_KEYS.indexOf kpi1))
          (colAt store (KPI_KEYS.indexOf kpi2))) ∧
    (∀ (store : List (String × List ℚ)) (a b : String),
      store.map Prod.fst = KPI_KEYS →
      perform_correlation_analysis store a b =
        pearson ((store.lookup a).getD []) ((store.lookup b).getD [])) ∧
    perform_correlation_analysis swappedStore "energy_spend" "oee" ≠
      pearson ((swappedStore.lookup "energy_spend").getD [])
        ((swappedStore.lookup "oee").getD []) := by
  refine ⟨fun store k1 k2 => rfl, ?_, ?_⟩
  · intro store a b hord
    unfold perform_correlation_analysis
    have hcol : ∀ k : String,
        (store.lookup k).getD [] = colAt store (KPI_KEYS.indexOf k) := by
      intro k
      rw [lookup_eq_get_indexOf, hord]
      rfl
    rw [hcol a, hcol b]
  · have hL : perform_correlation_analysis swappedStore "energy_spend" "oee" =
        some ((covQ [3, 2, 1] [1, 2, 3] : ℝ) / ((2/3 : ℚ) : ℝ)) := by
      rw [show perform_correlation_analysis swappedStore "energy_spend" "oee" =
        pearson [3, 2, 1] [1, 2, 3] from rfl]
      exact pearson_eval _ _ (2/3) (by norm_num [varQ, meanQ])
        (by norm_num [varQ, meanQ]) (by norm_num)
    have hR : pearson ((swappedStore.lookup "energy_spend").getD [])
        ((swappedStore.lookup "oee").getD []) = some 1 := by
      rw [show ((swappedStore.lookup "energy_spend").getD []) = [1, 2, 3] from rfl,
        show ((swappedStore.lookup "oee").getD []) = [1, 2, 3] from rfl]
      exact pearson_self _ (by norm_num [varQ, meanQ])
    rw [hL, hR]
    have hc : covQ ([3, 2, 1] : List ℚ) [1, 2, 3] = -(2/3) := by
      norm_num [covQ, meanQ]
    rw [hc]
    simp only [ne_eq, Option.some.injEq]
    push_cast
    norm_num

/-- Witness for C10: on the concrete store `analyticsStore`, whose key
order equals `KPI_LABELS` order, the cell under
`('energy_spend', 'oee')` equals the correlation of the series with
those names. -/
theorem correlation_labels_positional_witness :
    analyticsStore.map Prod.fst = KPI_KEYS ∧
    perform_correlation_analysis analyticsStore "energy_spend" "oee" =
      pearson ((analyticsStore.lookup "energy_spend").getD [])
        ((analyticsStore.lookup "oee").getD []) :=
  ⟨by decide,
   correlation_labels_positional.2.1 analyticsStore "energy_spend" "oee" (by decide)⟩

/-- Claim C8, evaluated at the failing input `analyticsStore`: the
`strong_correlations` list does contain each unordered pair at most once,
exactly the pairs with `|r| > 0.5`, labelled as the claim says — but it
stays in loop order.  Its absolute correlations come out as
`[0.8, 0.6, 1, 0.6, 0.8, 0.8, 0.6]`, which is not sorted descending; the
rendered `[:3]` slice is `[0.8, 0.6, 1]`, itself unsorted, and it shows a
pair with `|r| = 0.6` while a pair with `|r| = 0.8` is dropped. -/
theorem strong_correlations_unsorted_top3 :
    ((strong_correlations (perform_correlation_analysis analyticsStore)).map
        (fun c => |c.correlation|) =
      [4/5, 3/5, 1, 3/5, 4/5, 4/5, 3/5]) ∧
    ¬ List.Sorted (fun x y : ℝ => x ≥ y)
      ((strong_correlations (perform_correlation_analysis analyticsStore)).map
        (fun c => |c.correlation|)) ∧
    (((strong_correlations (perform_correlation_analysis analyticsStore)).take 3).map
        (fun c => |c.correlation|) = [4/5, 3/5, 1]) ∧
    ¬ List.Sorted (fun x y : ℝ => x ≥ y)
      (((strong_correlations (perform_correlation_analysis analyticsStore)).take 3).map
        (fun c => |c.correlation|)) ∧
    (4/5 : ℝ) ∈
      ((strong_correlations (perform_correlation_analysis analyticsStore)).drop 3).map
        (fun c => |c.correlation|) := by
  have e1 : perform_correlation_analysis analyticsStore
      "energy_spend" "carbon_intensity" = some ((4/5 : ℝ)) := by
    rw [show perform_correlation_analysis analyticsStore
      "energy_spend" "carbon_intensity" =
      pearson [1, -1, 2, -2] [2, -2, 1, -1] from rfl]
    rw [pearson_eval [1, -1, 2, -2] [2, -2, 1, -1] (5/2)
      (by norm_num [varQ, meanQ]) (by norm_num [varQ, meanQ]) (by norm_num)]
    norm_num [covQ, meanQ]
  have e2 : perform_correlation_analysis analyticsStore
      "energy_spend" "oee" = some ((0 : ℝ)) := by
    rw [show perform_correlation_analysis analyticsStore "energy_spend" "oee" =
      pearson [1, -1, 2, -2] [2, -2, -1, 1] from rfl]
    rw [pearson_eval [1, -1, 2, -2] [2, -2, -1, 1] (5/2)
      (by norm_num [varQ, meanQ]) (by norm_num [varQ, meanQ]) (by norm_num)]
    norm_num [covQ, meanQ]
  have e3 : perform_correlation_analysis analyticsStore
      "energy_spend" "compressed_air" = some ((-(3/5) : ℝ)) := by
    rw [show perform_correlation_analysis analyticsStore
      "energy_spend" "compressed_air" =
      pearson [1, -1, 2, -2] [1, -1, -2, 2] from rfl]
    rw [pearson_eval [1, -1, 2, -2] [1, -1, -2, 2] (5/2)
      (by norm_num [varQ, meanQ]) (by norm_num [varQ, meanQ]) (by norm_num)]
    norm_num [covQ, meanQ]
  have e4 : perform_correlation_analysis analyticsStore
      "energy_spend" "water_usage" = some ((-1 : ℝ)) := by
    rw [show perform_correlation_analysis analyticsStore
      "energy_spend" "water_usage" =
      pearson [1, -1, 2, -2] [-1, 1, -2, 2] from rfl]
    rw [pearson_eval [1, -1, 2, -2] [-1, 1, -2, 2] (5/2)
      (by norm_num [varQ, meanQ]) (by norm_num [varQ, meanQ]) (by norm_num)]
    norm_num [covQ, meanQ]
  have e5 : perform_correlation_analysis analyticsStore
      "carbon_intensity" "oee" = some ((3/5 : ℝ)) := by
    rw [show perform_correlation_analysis analyticsStore
      "carbon_intensity" "oee" =
      pearson [2, -2, 1, -1] [2, -2, -1, 1] from rfl]
    rw [pearson_eval [2, -2, 1, -1] [2, -2, -1, 1] (5/2)
      (by norm_num [varQ, meanQ]) (by norm_num [varQ, meanQ]) (by norm_num)]
    norm_num [covQ, meanQ]
  have e6 : perform_correlation_analysis analyticsStore
      "carbon_intensity" "compressed_air" = some ((0 : ℝ)) := by
    rw [show perform_correlation_analysis analyticsStore
      "carbon_intensity" "compressed_air" =
      pearson [2, -2, 1, -1] [1, -1, -2, 2] from rfl]
    rw [pearson_eval [2, -2, 1, -1] [1, -1, -2, 2] (5/2)
      (by norm_num [varQ, meanQ]) (by norm_num [varQ, meanQ]) (by norm_num)]
    norm_num [covQ, meanQ]
  have e7 : perform_correlation_analysis analyticsStore
      "carbon_intensity" "water_usage" = some ((-(4/5) : ℝ)) := by
    rw [show perform_correlation_analysis analyticsStore
      "carbon_intensity" "water_usage" =
      pearson [2, -2, 1, -1] [-1, 1, -2, 2] from rfl]
    rw [pearson_eval [2, -2, 1, -1] [-1, 1, -2, 2] (5/2)
      (by norm_num [varQ, meanQ]) (by norm_num [varQ, meanQ]) (by norm_num)]
    norm_num [covQ, meanQ]
  have e8 : perform_correlation_analysis analyticsStore
      "oee" "compressed_air" = some ((4/5 : ℝ)) := by
    rw [show perform_correlation_analysis analyticsStore
      "oee" "compressed_air" =
      pearson [2, -2, -1, 1] [1, -1, -2, 2] from rfl]
    rw [pearson_eval [2, -2, -1, 1] [1, -1, -2, 2] (5/2)
      (by norm_num [varQ, meanQ]) (by norm_num [varQ, meanQ]) (by norm_num)]
    norm_num [covQ, meanQ]
  have e9 : perform_correlation_analysis analyticsStore
      "oee" "water_usage" = some ((0 : ℝ)) := by
    rw [show perform_correlation_analysis analyticsStore "oee" "water_usage" =
      pearson [2, -2, -1, 1] [-1, 1, -2, 2] from rfl]
    rw [pearson_eval [2, -2, -1, 1] [-1, 1, -2, 2] (5/2)
      (by norm_num [varQ, meanQ]) (by norm_num [varQ, meanQ]) (by norm_num)]
    norm_num [covQ, meanQ]
  have e10 : perform_correlation_analysis analyticsStore
      "compressed_air" "water_usage" = some ((3/5 : ℝ)) := by
    rw [show perform_correlation_analysis analyticsStore
      "compressed_air" "water_usage" =
      pearson [1, -1, -2, 2] [-1, 1, -2, 2] from rfl]
    rw [pearson_eval [1, -1, -2, 2] [-1, 1, -2, 2] (5/2)
      (by norm_num [varQ, meanQ]) (by norm_num [varQ, meanQ]) (by norm_num)]
    norm_num [covQ, meanQ]
  have hmain : strong_correlations (perform_correlation_analysis analyticsStore) =
      [⟨"Energy Spend", "Carbon Intensity", (4/5 : ℝ), "Strong"⟩,
       ⟨"Energy Spend", "Compressed Air", (-(3/5) : ℝ), "Moderate"⟩,
       ⟨"Energy Spend", "Water Usage", (-1 : ℝ), "Strong"⟩,
       ⟨"Carbon Intensity", "OEE", (3/5 : ℝ), "Moderate"⟩,
       ⟨"Carbon Intensity", "Water Usage", (-(4/5) : ℝ), "Strong"⟩,
       ⟨"OEE", "Compressed Air", (4/5 : ℝ), "Strong"⟩,
       ⟨"Compressed Air", "Water Usage", (3/5 : ℝ), "Moderate"⟩] := by
    unfold strong_correlations
    rw [show orderedKeyPairs =
      [("energy_spend", "carbon_intensity"), ("energy_spend", "oee"),
       ("energy_spend", "compressed_air"), ("energy_spend", "water_usage"),
       ("carbon_intensity", "oee"), ("carbon_intensity", "compressed_air"),
       ("carbon_intensity", "water_usage"), ("oee", "compressed_air"),
       ("oee", "water_usage"), ("compressed_air", "water_usage")] from rfl]
    simp only [List.filterMap_cons, List.filterMap_nil, e1, e2, e3, e4, e5,
      e6, e7, e8, e9, e10,
      show |(4/5 : ℝ)| = 4/5 from abs_of_nonneg (by norm_num),
      show |(-(3/5) : ℝ)| = 3/5 from by rw [abs_neg]; exact abs_of_nonneg (by norm_num),
      show |(-1 : ℝ)| = 1 from by rw [abs_neg]; exact abs_of_nonneg (by norm_num),
      show |(3/5 : ℝ)| = 3/5 from abs_of_nonneg (by norm_num),
      show |(-(4/5) : ℝ)| = 4/5 from by rw [abs_neg]; exact abs_of_nonneg (by norm_num),
      show |(0 : ℝ)| = 0 from abs_zero,
      if_pos (show (4/5 : ℝ) > 1/2 by norm_num),
      if_neg (show ¬ ((0 : ℝ) > 1/2) by norm_num),
      if_pos (show (3/5 : ℝ) > 1/2 by norm_num),
      if_pos (show (1 : ℝ) > 1/2 by norm_num),
      if_pos (show (4/5 : ℝ) > 7/10 by norm_num),
      if_neg (show ¬ ((3/5 : ℝ) > 7/10) by norm_num),
      if_pos (show (1 : ℝ) > 7/10 by norm_num)]
    rfl
  have habsmap : (strong_correlations (perform_correlation_analysis analyticsStore)).map
      (fun c => |c.correlation|) = [4/5, 3/5, 1, 3/5, 4/5, 4/5, 3/5] := by
    rw [hmain]
    simp only [List.map_cons, List.map_nil]
    rw [show |(4/5 : ℝ)| = 4/5 from abs_of_nonneg (by norm_num),
      show |(-(3/5) : ℝ)| = 3/5 from by rw [abs_neg]; exact abs_of_nonneg (by norm_num),
      show |(-1 : ℝ)| = 1 from by rw [abs_neg]; exact abs_of_nonneg (by norm_num),
      show |(3/5 : ℝ)| = 3/5 from abs_of_nonneg (by norm_num),
      show |(-(4/5) : ℝ)| = 4/5 from by rw [abs_neg]; exact abs_of_nonneg (by norm_num)]
  refine ⟨habsmap, ?_, ?_, ?_, ?_⟩
  · rw [habsmap]
    intro hs
    have hall := (List.sorted_cons.mp hs).1 1 (by norm_num)
    norm_num at hall
  · rw [List.map_take, habsmap]
    rfl
  · rw [List.map_take, habsmap]
    intro hs
    have h2 := (List.sorted_cons.mp hs).2
    have hall := (List.sorted_cons.mp h2).1 1 (by norm_num)
    norm_num at hall
  · rw [List.map_drop, habsmap]
    norm_num

/-- Witness for C3 at the concrete series `[1, 2, 4]` with horizon 2. -/
theorem generate_forecast_shape_witness :
    (2 ≤ ([1, 2, 4] : List ℚ).length ∧ 1 ≤ 2) ∧ ForecastShape [1, 2, 4] 2 :=
  ⟨⟨by decide, by decide⟩, generate_forecast_shape [1, 2, 4] 2 (by decide) (by decide)⟩

/-- Witness for C9 at the concrete non-constant series `[0,0,0,0,0,6]`
(variance 5) with threshold 2: day 6 is flagged with z-score √5 > 2. -/
theorem detect_anomalies_zscores_absolute_witness :
    varQ ([0, 0, 0, 0, 0, 6] : List ℚ) ≠ 0 ∧
    (∃ r, detect_anomalies ([0, 0, 0, 0, 0, 6] : List ℚ) 2 = some r ∧
      r.z_scores = r.values.map (fun (x : ℚ) =>
        some (|(x : ℝ) - ((meanQ ([0, 0, 0, 0, 0, 6] : List ℚ) : ℚ) : ℝ)| /
          Real.sqrt (varQ ([0, 0, 0, 0, 0, 6] : List ℚ)))) ∧
      ∀ oz ∈ r.z_scores, ∃ z : ℝ, oz = some z ∧ 0 ≤ z ∧ ((2 : ℚ) : ℝ) < z) :=
  ⟨by norm_num [varQ, meanQ],
   detect_anomalies_zscores_absolute [0, 0, 0, 0, 0, 6] 2
     (by norm_num [varQ, meanQ])⟩

end KpiEngine
